import Mathlib

/-!
Verification development for the gmsh_mesher geometry-preparation pipeline.

The numeric core of `scripts/create_mesh.py` (preset resolution, unit
scaling, translation to the positive octant, air-box synthesis and the
mesh-sizing plan), the IGES header parsing of `scripts/iges.py`, and the
name-to-material mapping of `scripts/elmer_config.py` are embedded as pure
Lean functions.  Python floats are idealized as exact rationals (ℚ); the
decimal rounding `round(x, 5)` is modelled as round-half-up at five decimal
places on ℚ (tie behaviour is irrelevant to every statement below).
Geometry is represented by its axis-aligned bounding box, which is exactly
the information the script queries from the gmsh kernel.
-/

namespace GmshMesher

/-! ### Decimal rounding: Python `round(x, 5)` idealized over ℚ -/

def round5 (x : ℚ) : ℚ := (⌊x * 100000 + 1/2⌋ : ℚ) / 100000

/-! ### `scripts/iges.py` -/

/-- Python `int` applied to a string of ASCII decimal digits. -/
def natOfDigits (l : List Char) : Nat := l.foldl (fun n c => 10 * n + (c.toNat - 48)) 0

/-- `iges.decode_hollerith`: `re.match` of the pattern digits, then `H`,
then `(.*)` (which stops at a newline, `re.DOTALL` not being set) succeeds
exactly when the string starts with a nonempty digit run followed by `H`;
on success the captured text is cut to the declared length, otherwise the
string is returned unchanged. -/
def decode_hollerith (s : List Char) : List Char :=
  if s.takeWhile Char.isDigit ≠ [] ∧ (s.dropWhile Char.isDigit).headD ' ' = 'H' then
    (((s.dropWhile Char.isDigit).tail).takeWhile (fun c => c ≠ '\n')).take
      (natOfDigits (s.takeWhile Char.isDigit))
  else s

/-- Python `str.strip` (whitespace removed from both ends). -/
def stripEnds (s : List Char) : List Char :=
  ((s.dropWhile Char.isWhitespace).reverse.dropWhile Char.isWhitespace).reverse

/-- `iges.get_iges_units`, line filter: the line is at least 73 characters
long and carries `G` at index 72 (the fixed tag column). -/
def isGlobalLine (l : List Char) : Bool :=
  decide (73 ≤ l.length) && (l.getD 72 ' ' == 'G')

/-- `iges.get_iges_units`, steps 1-2: keep the first 72 characters of every
Global-Section line and concatenate them in file order. -/
def globalData (lines : List (List Char)) : List Char :=
  ((lines.filter isGlobalLine).map (fun l => l.take 72)).flatten

/-- `iges.get_iges_units`, steps 3-4: the first character of the record is
the parameter delimiter; the record minus its two delimiter characters is
split on the parameter delimiter.  (Indexing `global_data[0]` is safe in the
Python source whenever the record is nonempty, since every kept line
contributes exactly 72 characters; the default supplied to `getD` is never
used on the paths where the script reads it.) -/
def igesFields (lines : List (List Char)) : List (List Char) :=
  let gd := globalData lines
  (gd.drop 2).splitOn (gd.getD 0 ' ')

/-- `iges.get_iges_units`: fails when no Global-Section line exists or when
fewer than 15 delimited fields are recovered; otherwise field 12 is stripped
and Hollerith-decoded. -/
def get_iges_units (lines : List (List Char)) : Except String (List Char) :=
  if globalData lines = [] then
    .error "No Global Section found (no lines with G flag)"
  else if (igesFields lines).length < 15 then
    .error "Global Section does not have enough fields to extract units"
  else
    .ok (decode_hollerith (stripEnds ((igesFields lines).getD 12 [])))

/-! ### `scripts/elmer_config.py` -/

def lowerList (s : List Char) : List Char := s.map Char.toLower

/-- `re.match(pattern, name, re.IGNORECASE)` for the literal-prefix patterns
of the rule tables: a case-insensitive prefix test. -/
def patternMatches (pat name : List Char) : Bool :=
  (lowerList pat).isPrefixOf (lowerList name)

/-- The ordered rule table of `elmer_config.name_to_material` (the `^`
anchors of the source regexes are the prefix-match semantics of
`patternMatches`). -/
def material_cases : List (List Char × Nat) :=
  [("Shapes/air".toList, 1),
   ("Shapes/magnet_1_0_0".toList, 2),
   ("Shapes/magnet_-1_0_0".toList, 3),
   ("Shapes/magnet_0_1_0".toList, 4),
   ("Shapes/magnet_0_-1_0".toList, 5),
   ("Shapes/magnet_0_0_1".toList, 6),
   ("Shapes/magnet_0_0_-1".toList, 7),
   ("Shapes/iron".toList, 8)]

/-- `elmer_config.name_to_material`: first matching rule wins, no match is a
raised `ValueError`. -/
def name_to_material (name : List Char) : Except String Nat :=
  match material_cases.find? (fun c => patternMatches c.1 name) with
  | some c => .ok c.2
  | none => .error "No material found for name"

/-- Modelled from the spec: `elmer_config.name_to_body_force` is called from
`create_mesh.py` but absent from the sources.  Per spec section 4.5 it is an
ordered rule table keyed the same way as the material table (case-insensitive
first-match), and the absence of a match means no applied force rather than
an error; the table contents being unspecified, the lookup is modelled
generically over an arbitrary rule table. -/
def name_to_body_force (rules : List (List Char × Nat)) (name : List Char) : Option Nat :=
  (rules.find? (fun c => patternMatches c.1 name)).map (fun c => c.2)

structure Body where
  name : List Char
  id : Nat
  material : Nat
  body_force : Option Nat
deriving DecidableEq

/-- The per-body assembly step of `create_mesh.py` lines 290-296: the
material lookup (which may fail) followed by the optional body-force lookup,
producing the record handed to the solver-config renderer. -/
def buildBody (rules : List (List Char × Nat)) (name : List Char) (tag : Nat) :
    Except String Body :=
  match name_to_material name with
  | .error e => .error e
  | .ok m => .ok ⟨name, tag, m, name_to_body_force rules name⟩

/-! ### `scripts/create_mesh.py` -/

/-- Units dispatch of `create_mesh.py` lines 118-125 (MM, CM and M, any
other units name raises). -/
def scale_factor (u : List Char) : Except String ℚ :=
  if u = "MM".toList then .ok (1/1000)
  else if u = "CM".toList then .ok (1/100)
  else if u = "M".toList then .ok 1
  else .error "IGES file is using unexpected units"

/-- The command-line parameters that feed the sizing computation, with the
argparse defaults of lines 20-47. -/
structure Args where
  air_mesh_size : ℚ
  refinement_factor : ℚ
  air_box_padding : ℚ
  refine_dist_min : ℚ
  refine_dist_max : ℚ
  draft : Bool
  fine : Bool
deriving DecidableEq

def defaultArgs : Args := ⟨0, 2/100, 400, 4, 40, false, false⟩

/-- The working values after preset resolution. -/
structure Resolved where
  auto_air_mesh_factor : ℚ
  air_mesh_size : ℚ
  refinement_factor : ℚ
  air_box_padding : ℚ
  refine_dist_min : ℚ
  refine_dist_max : ℚ
deriving DecidableEq

/-- Preset resolution, `create_mesh.py` lines 80-97.  In the fine branch,
lines 90-91 replace `refinement_factor` by 0.015 unless it was set away from
its default; lines 93-94 then test `refine_dist_max` against its default but
the assignment on line 94 writes 60.0 into `refinement_factor` (the comment
on line 92 announces an override of `refine_dist_max`). -/
def resolvePresets (a : Args) : Resolved :=
  if a.draft then
    ⟨20, a.air_mesh_size, a.refinement_factor, a.air_box_padding,
     a.refine_dist_min, a.refine_dist_max⟩
  else if a.fine then
    let rf0 := if a.refinement_factor = 2/100 then 3/200 else a.refinement_factor
    let rf1 := if a.refine_dist_max = 40 then (60 : ℚ) else rf0
    ⟨40, a.air_mesh_size, rf1, a.air_box_padding,
     a.refine_dist_min, a.refine_dist_max⟩
  else
    ⟨30, a.air_mesh_size, a.refinement_factor, a.air_box_padding,
     a.refine_dist_min, a.refine_dist_max⟩

/-- Unit scaling of the length-valued parameters, `create_mesh.py`
lines 136-140 (applied only when the scale factor differs from 1;
`refinement_factor` is dimensionless and not scaled). -/
def scaleResolved (sf : ℚ) (r : Resolved) : Resolved :=
  if sf ≠ 1 then
    ⟨r.auto_air_mesh_factor, r.air_mesh_size * sf, r.refinement_factor,
     r.air_box_padding * sf, r.refine_dist_min * sf, r.refine_dist_max * sf⟩
  else r

/-- An axis-aligned bounding box, the shape of every geometry query the
script performs against the kernel. -/
structure BBox where
  xmin : ℚ
  ymin : ℚ
  zmin : ℚ
  xmax : ℚ
  ymax : ℚ
  zmax : ℚ
deriving DecidableEq

/-- Per-axis translation offset, `create_mesh.py` lines 194-199. -/
def offsetFor (minCoord pad : ℚ) : ℚ :=
  if minCoord - pad < 0 then -(minCoord - pad) else 0

/-- Bounding box of the body volumes after the translation of line 201
(every volume is moved by the same offsets, so the box translates rigidly). -/
def translatedBBox (b : BBox) (pad : ℚ) : BBox :=
  ⟨b.xmin + offsetFor b.xmin pad, b.ymin + offsetFor b.ymin pad,
   b.zmin + offsetFor b.zmin pad,
   b.xmax + offsetFor b.xmin pad, b.ymax + offsetFor b.ymin pad,
   b.zmax + offsetFor b.zmin pad⟩

/-- The air box of `create_mesh.py` lines 210-215 and 231:
`addBox(0, 0, 0, xmax + 2p, ymax + 2p, zmax + 2p)` where the bounds are the
pre-translation bounds of line 191.  The box occupies the axis-aligned
region spanned by the corner and corner plus extent. -/
def airBox (b : BBox) (pad : ℚ) : BBox :=
  ⟨min 0 (b.xmax + 2 * pad), min 0 (b.ymax + 2 * pad), min 0 (b.zmax + 2 * pad),
   max 0 (b.xmax + 2 * pad), max 0 (b.ymax + 2 * pad), max 0 (b.zmax + 2 * pad)⟩

def lenX (b : BBox) : ℚ := b.xmax - b.xmin
def lenY (b : BBox) : ℚ := b.ymax - b.ymin
def lenZ (b : BBox) : ℚ := b.zmax - b.zmin

/-- The four mesh-density parameters handed to the threshold field
(`SizeMax`, `SizeMin`, `DistMin`, `DistMax` at lines 269-272). -/
structure MeshSizingPlan where
  outer_size : ℚ
  inner_size : ℚ
  inner_distance : ℚ
  outer_distance : ℚ
deriving DecidableEq

/-- Outer mesh size, `create_mesh.py` lines 217-220 over the already scaled
parameters: when not supplied (zero) it is the rounded sum of the three
air-box extents over the preset divisor. -/
def outerSize (r : Resolved) (b : BBox) : ℚ :=
  if r.air_mesh_size = 0 then
    round5 (((b.xmax + 2 * r.air_box_padding) + (b.ymax + 2 * r.air_box_padding) +
             (b.zmax + 2 * r.air_box_padding)) / r.auto_air_mesh_factor)
  else r.air_mesh_size

/-- Sizing computation of `create_mesh.py` lines 217-228: the inner size
(line 222) is the rounded product of the outer size with the refinement
factor, and the distances pass through unchanged. -/
def makePlan (r : Resolved) (b : BBox) : MeshSizingPlan :=
  ⟨outerSize r b, round5 (outerSize r b * r.refinement_factor),
   r.refine_dist_min, r.refine_dist_max⟩

/-- End-to-end sizing plan for given command-line arguments, unit scale
factor, and post-scaling geometry bounding box. -/
def plan (a : Args) (sf : ℚ) (b : BBox) : MeshSizingPlan :=
  makePlan (scaleResolved sf (resolvePresets a)) b

/-- The scaled padding that the air-box construction uses for arguments
`a` under scale factor `sf`. -/
def scaledPadding (a : Args) (sf : ℚ) : ℚ :=
  (scaleResolved sf (resolvePresets a)).air_box_padding

/-! ### Pipeline step order (for the early-failure claims) -/

inductive KernelOp
  | importShapes
  | dilate
  | removeAllDuplicates
  | translate
  | addBox
  | fragment
  | generateMesh
  | writeMesh
deriving DecidableEq

/-- The kernel-visible state the pipeline branches on: the units name parsed
from the header, the duplicate entities reported by `removeAllDuplicates`,
and the 3-D volumes present after duplicate removal. -/
structure ImportedModel where
  unit_name : List Char
  duplicates : List Nat
  volumes : List Nat
deriving DecidableEq

/-- The sequence of kernel operations `create_mesh.py` issues, paired with
the error that aborts the run, if any.  Order as in the source: units are
parsed before the import (line 115), scaling happens only for a scale factor
other than 1 (line 136), duplicates abort at line 166, an empty volume list
aborts at line 172, and only then do the translation (201), air-box
creation (231), fragment (242), meshing (278) and write (282) happen.
`openingOps` is the prefix issued before the two abort checks. -/
def openingOps (sf : ℚ) : List KernelOp :=
  KernelOp.importShapes ::
    ((if sf ≠ 1 then [KernelOp.dilate] else []) ++ [KernelOp.removeAllDuplicates])

def pipelineOps (m : ImportedModel) : List KernelOp × Option String :=
  match scale_factor m.unit_name with
  | .error e => ([], some e)
  | .ok sf =>
    if m.duplicates ≠ [] then (openingOps sf, some "Duplicates found in the IGES file")
    else if m.volumes = [] then (openingOps sf, some "No volumes found in the IGES file")
    else (openingOps sf ++ [KernelOp.translate, KernelOp.addBox, KernelOp.fragment,
                            KernelOp.generateMesh, KernelOp.writeMesh], none)

/-! ### Helper lemmas -/

lemma round5_eval (x : ℚ) (n : ℤ) (h1 : (n : ℚ) ≤ x * 100000 + 1/2)
    (h2 : x * 100000 + 1/2 < n + 1) : round5 x = (n : ℚ) / 100000 := by
  unfold round5
  rw [Int.floor_eq_iff.mpr ⟨h1, by exact_mod_cast h2⟩]

lemma scaleResolved_one (r : Resolved) : scaleResolved 1 r = r := by
  simp [scaleResolved]

lemma resolve_fine_explicit_factor :
    resolvePresets ⟨0, 1/20, 400, 4, 40, false, true⟩ = ⟨40, 0, 60, 400, 4, 40⟩ := by
  norm_num [resolvePresets]

lemma resolve_fine_all_defaults :
    resolvePresets ⟨0, 2/100, 400, 4, 40, false, true⟩ = ⟨40, 0, 60, 400, 4, 40⟩ := by
  norm_num [resolvePresets]

lemma outerSize_fine_cube :
    outerSize ⟨40, 0, 60, 400, 4, 40⟩ ⟨0, 0, 0, 1, 1, 1⟩ = 2403/40 := by
  have h : outerSize ⟨40, 0, 60, 400, 4, 40⟩ ⟨0, 0, 0, 1, 1, 1⟩ = round5 (2403/40) := by
    norm_num [outerSize]
  rw [h, round5_eval (2403/40) 6007500 (by norm_num) (by norm_num)]
  norm_num

lemma makePlan_fine_cube :
    makePlan ⟨40, 0, 60, 400, 4, 40⟩ ⟨0, 0, 0, 1, 1, 1⟩ = ⟨2403/40, 7209/2, 4, 40⟩ := by
  unfold makePlan
  rw [outerSize_fine_cube]
  have h2 : round5 ((2403/40 : ℚ) * 60) = 7209/2 := by
    have e : (2403/40 : ℚ) * 60 = 7209/2 := by norm_num
    rw [e, round5_eval _ 360450000 (by norm_num) (by norm_num)]
    norm_num
  rw [h2]

/-! ### Claim theorems -/

/-- C1: the claim says an explicitly supplied `refinement_factor` (0.05)
survives the fine preset, so `inner_size = round(outer_size * 0.05, 5)`.
The code disagrees: with `refine_dist_max` left at its default 40.0,
line 94 of `create_mesh.py` overwrites `refinement_factor` with 60.0 (the
adjacent comment says the assignment was meant for `refine_dist_max`), so
for a unit-cube geometry in meters the inner size is 3604.5 rather than
`round(outer_size * 0.05, 5) = 3.00375`. -/
theorem C1_fine_preset_overwrites_explicit_factor :
    (plan ⟨0, 1/20, 400, 4, 40, false, true⟩ 1 ⟨0, 0, 0, 1, 1, 1⟩).inner_size = 7209/2 ∧
    (plan ⟨0, 1/20, 400, 4, 40, false, true⟩ 1 ⟨0, 0, 0, 1, 1, 1⟩).inner_size ≠
      round5 ((plan ⟨0, 1/20, 400, 4, 40, false, true⟩ 1 ⟨0, 0, 0, 1, 1, 1⟩).outer_size * (1/20)) := by
  have hp : plan ⟨0, 1/20, 400, 4, 40, false, true⟩ 1 ⟨0, 0, 0, 1, 1, 1⟩ =
      ⟨2403/40, 7209/2, 4, 40⟩ := by
    unfold plan
    rw [resolve_fine_explicit_factor, scaleResolved_one, makePlan_fine_cube]
  rw [hp]
  refine ⟨rfl, ?_⟩
  have hr : round5 ((2403/40 : ℚ) * (1/20)) = 2403/800 := by
    have e : (2403/40 : ℚ) * (1/20) = 2403/800 := by norm_num
    rw [e, round5_eval _ 300375 (by norm_num) (by norm_num)]
    norm_num
  show (7209/2 : ℚ) ≠ round5 ((2403/40) * (1/20))
  rw [hr]
  norm_num

/-- C2: the claim requires `inner_size ≤ outer_size` for every
preset/override combination.  Under the fine preset with every parameter at
its default (a supported combination), line 94 of `create_mesh.py` sets the
refinement factor to 60.0, so for a unit-cube geometry in meters the plan
has `inner_size = 3604.5 > outer_size = 60.075`, violating the invariant. -/
theorem C2_fine_preset_violates_plan_invariant :
    (plan ⟨0, 2/100, 400, 4, 40, false, true⟩ 1 ⟨0, 0, 0, 1, 1, 1⟩).outer_size <
      (plan ⟨0, 2/100, 400, 4, 40, false, true⟩ 1 ⟨0, 0, 0, 1, 1, 1⟩).inner_size := by
  have hp : plan ⟨0, 2/100, 400, 4, 40, false, true⟩ 1 ⟨0, 0, 0, 1, 1, 1⟩ =
      ⟨2403/40, 7209/2, 4, 40⟩ := by
    unfold plan
    rw [resolve_fine_all_defaults, scaleResolved_one, makePlan_fine_cube]
  rw [hp]
  show (2403/40 : ℚ) < 7209/2
  norm_num

/-- C3 fails as stated: with a negative padding (-5) and a geometry whose
bounding box is the cube from (-10,-10,-10) to (0,0,0), the translated
geometry still reaches coordinate -5 < 0 and the constructed air box has
minimum corner -10 on each axis, not 0. -/
theorem C3_counterexample_negative_padding :
    (translatedBBox ⟨-10, -10, -10, 0, 0, 0⟩ (-5)).xmin < 0 ∧
    (airBox ⟨-10, -10, -10, 0, 0, 0⟩ (-5)).xmin ≠ 0 := by
  constructor
  · show (-10 : ℚ) + offsetFor (-10) (-5) < 0
    unfold offsetFor
    rw [if_pos (by norm_num : (-10 : ℚ) - (-5) < 0)]
    norm_num
  · show min 0 ((0 : ℚ) + 2 * (-5)) ≠ 0
    rw [min_eq_right (by norm_num : (0 : ℚ) + 2 * (-5) ≤ 0)]
    norm_num

/-- C3 (amended): when the padding is nonnegative and each pre-translation
bounding-box maximum plus twice the padding is nonnegative (so the box the
code constructs has nonnegative extents), the air box has minimum corner
exactly (0,0,0) and no translated geometry coordinate is negative. -/
theorem C3_normalization_nonneg (b : BBox) (pad : ℚ) (hp : 0 ≤ pad)
    (hx : 0 ≤ b.xmax + 2 * pad) (hy : 0 ≤ b.ymax + 2 * pad) (hz : 0 ≤ b.zmax + 2 * pad) :
    ((airBox b pad).xmin = 0 ∧ (airBox b pad).ymin = 0 ∧ (airBox b pad).zmin = 0) ∧
    (0 ≤ (translatedBBox b pad).xmin ∧ 0 ≤ (translatedBBox b pad).ymin ∧
      0 ≤ (translatedBBox b pad).zmin) := by
  have key : ∀ m : ℚ, 0 ≤ m + offsetFor m pad := by
    intro m
    unfold offsetFor
    split_ifs with h
    · linarith
    · linarith
  exact ⟨⟨min_eq_left hx, min_eq_left hy, min_eq_left hz⟩, key b.xmin, key b.ymin, key b.zmin⟩

/-- Witness for C3 (amended) at the unit cube with the default padding. -/
theorem C3_normalization_nonneg_witness :
    (0 : ℚ) ≤ 400 ∧
    (((airBox ⟨0, 0, 0, 1, 1, 1⟩ 400).xmin = 0 ∧ (airBox ⟨0, 0, 0, 1, 1, 1⟩ 400).ymin = 0 ∧
      (airBox ⟨0, 0, 0, 1, 1, 1⟩ 400).zmin = 0) ∧
     (0 ≤ (translatedBBox ⟨0, 0, 0, 1, 1, 1⟩ 400).xmin ∧
      0 ≤ (translatedBBox ⟨0, 0, 0, 1, 1, 1⟩ 400).ymin ∧
      0 ≤ (translatedBBox ⟨0, 0, 0, 1, 1, 1⟩ 400).zmin)) :=
  ⟨by norm_num,
   C3_normalization_nonneg ⟨0, 0, 0, 1, 1, 1⟩ 400 (by norm_num) (by norm_num) (by norm_num)
     (by norm_num)⟩

/-- C5: the claim says the air box keeps every face at distance exactly
`padding` from the corresponding face of the (translated) body bounding box.
The code builds the box from the origin with extent `pre-translation
max + 2 * padding`, so for the cube from (-10,-10,-10) to (0,0,0) with
padding 400 the max-side gap is 390, not 400. -/
theorem C5_air_box_gap_not_padding :
    (airBox ⟨-10, -10, -10, 0, 0, 0⟩ 400).xmax -
      (translatedBBox ⟨-10, -10, -10, 0, 0, 0⟩ 400).xmax = 390 ∧
    (390 : ℚ) ≠ 400 := by
  have h1 : (airBox ⟨-10, -10, -10, 0, 0, 0⟩ 400).xmax = 800 := by
    show max 0 ((0 : ℚ) + 2 * 400) = 800
    rw [max_eq_right (by norm_num : (0 : ℚ) ≤ 0 + 2 * 400)]
    norm_num
  have h2 : (translatedBBox ⟨-10, -10, -10, 0, 0, 0⟩ 400).xmax = 410 := by
    show (0 : ℚ) + offsetFor (-10) 400 = 410
    unfold offsetFor
    rw [if_pos (by norm_num : (-10 : ℚ) - 400 < 0)]
    norm_num
  rw [h1, h2]
  norm_num

/-! ### Further helper lemmas -/

lemma resolvePresets_air_mesh_size (a : Args) :
    (resolvePresets a).air_mesh_size = a.air_mesh_size := by
  unfold resolvePresets
  split_ifs <;> rfl

lemma resolvePresets_divisor (a : Args) :
    (resolvePresets a).auto_air_mesh_factor =
      if a.draft then 20 else if a.fine then 40 else 30 := by
  unfold resolvePresets
  split_ifs <;> rfl

lemma scaleResolved_divisor (sf : ℚ) (r : Resolved) :
    (scaleResolved sf r).auto_air_mesh_factor = r.auto_air_mesh_factor := by
  unfold scaleResolved
  split_ifs <;> rfl

lemma scaleResolved_ams_zero (sf : ℚ) (r : Resolved) (h : r.air_mesh_size = 0) :
    (scaleResolved sf r).air_mesh_size = 0 := by
  unfold scaleResolved
  split_ifs <;> simp [h]

lemma takeWhile_all_append (p : Char → Bool) (d : List Char) (x : Char) (t : List Char)
    (hd : ∀ c ∈ d, p c = true) (hx : p x = false) :
    (d ++ x :: t).takeWhile p = d ∧ (d ++ x :: t).dropWhile p = x :: t := by
  induction d with
  | nil => simp [List.takeWhile_cons, List.dropWhile_cons, hx]
  | cons a d ih =>
    have ha : p a = true := hd a (by simp)
    obtain ⟨ih1, ih2⟩ := ih (fun c hc => hd c (by simp [hc]))
    simp [List.takeWhile_cons, List.dropWhile_cons, ha, ih1, ih2]

lemma take_takeWhile_no_newline (t : List Char) (n : Nat) (h : '\n' ∉ t.take n) :
    (t.takeWhile (fun c => c ≠ '\n')).take n = t.take n := by
  induction t generalizing n with
  | nil => simp
  | cons a t ih =>
    cases n with
    | zero => simp
    | succ n =>
      have ha : a ≠ '\n' := by
        intro e
        exact h (by simp [e])
      have ht : '\n' ∉ t.take n := fun hm => h (by simp [hm])
      rw [List.takeWhile_cons, if_pos (decide_eq_true ha), List.take_succ_cons,
          List.take_succ_cons, ih n ht]

lemma decode_hollerith_id (s : List Char)
    (h : ∀ d t, s = d ++ 'H' :: t → ¬(d ≠ [] ∧ ∀ c ∈ d, c.isDigit = true)) :
    decode_hollerith s = s := by
  unfold decode_hollerith
  rw [if_neg ?_]
  rintro ⟨h1, h2⟩
  cases hd : s.dropWhile Char.isDigit with
  | nil =>
    rw [hd] at h2
    exact absurd h2 (by decide)
  | cons c rest =>
    rw [hd] at h2
    have hc : c = 'H' := h2
    have hs : s = s.takeWhile Char.isDigit ++ 'H' :: rest := by
      conv_lhs => rw [← List.takeWhile_append_dropWhile Char.isDigit s]
      rw [hd, hc]
    exact h (s.takeWhile Char.isDigit) rest hs
      ⟨h1, fun x hx => List.mem_takeWhile_imp hx⟩

lemma decode_hollerith_counted (d t : List Char) (hne : d ≠ [])
    (hdig : ∀ c ∈ d, c.isDigit = true) (hnl : '\n' ∉ t.take (natOfDigits d)) :
    decode_hollerith (d ++ 'H' :: t) = t.take (natOfDigits d) := by
  obtain ⟨htake, hdrop⟩ := takeWhile_all_append Char.isDigit d 'H' t hdig (by decide)
  unfold decode_hollerith
  rw [if_pos ⟨by rw [htake]; exact hne, by rw [hdrop]; rfl⟩, htake, hdrop]
  exact take_takeWhile_no_newline t _ hnl

lemma addBox_not_mem_opening (sf : ℚ) : KernelOp.addBox ∉ openingOps sf := by
  unfold openingOps
  split_ifs <;> decide

lemma fragment_not_mem_opening (sf : ℚ) : KernelOp.fragment ∉ openingOps sf := by
  unfold openingOps
  split_ifs <;> decide

/-! ### Claim theorems, continued -/

/-- C4: the body-force lookup is optional.  For every rule table, body name
and volume tag, if the material lookup succeeds and no body-force rule
matches the name, the body record is still assembled without error and
carries an empty body-force value.  (`name_to_body_force` is modelled from
the spec, being absent from the sources.) -/
theorem C4_body_force_lookup_optional (rules : List (List Char × Nat))
    (name : List Char) (tag m : Nat)
    (hm : name_to_material name = .ok m)
    (hnone : ∀ r ∈ rules, patternMatches r.1 name = false) :
    buildBody rules name tag = .ok ⟨name, tag, m, none⟩ := by
  have hbf : name_to_body_force rules name = none := by
    unfold name_to_body_force
    rw [List.find?_eq_none.mpr (fun r hr => by simp [hnone r hr])]
    rfl
  unfold buildBody
  rw [hm]
  dsimp only
  rw [hbf]

/-- Witness for C4 at the name `Shapes/iron` (material id 8) and a rule
table none of whose patterns matches it. -/
theorem C4_body_force_lookup_optional_witness :
    name_to_material "Shapes/iron".toList = .ok 8 ∧
    (∀ r ∈ ([("Other/thing".toList, 9)] : List (List Char × Nat)),
        patternMatches r.1 "Shapes/iron".toList = false) ∧
    buildBody [("Other/thing".toList, 9)] "Shapes/iron".toList 3 =
      .ok ⟨"Shapes/iron".toList, 3, 8, none⟩ :=
  ⟨rfl, by decide,
   C4_body_force_lookup_optional [("Other/thing".toList, 9)] "Shapes/iron".toList 3 8 rfl
     (by decide)⟩

/-- C6: when the caller leaves `air_mesh_size` at 0, the outer size is
`round((dx + dy + dz) / divisor, 5)` where dx, dy, dz are the edge lengths
of the constructed air box and the divisor is 20 under draft, 40 under fine
and 30 otherwise.  (The nonnegativity hypotheses say the constructed box has
nonnegative extents, so that its edge lengths are the extent values the code
sums.) -/
theorem C6_outer_size_auto_formula (a : Args) (sf : ℚ) (b : BBox)
    (h0 : a.air_mesh_size = 0)
    (hx : 0 ≤ b.xmax + 2 * scaledPadding a sf)
    (hy : 0 ≤ b.ymax + 2 * scaledPadding a sf)
    (hz : 0 ≤ b.zmax + 2 * scaledPadding a sf) :
    (plan a sf b).outer_size =
      round5 ((lenX (airBox b (scaledPadding a sf)) +
               lenY (airBox b (scaledPadding a sf)) +
               lenZ (airBox b (scaledPadding a sf))) /
              (if a.draft then 20 else if a.fine then 40 else 30)) := by
  have hams : (scaleResolved sf (resolvePresets a)).air_mesh_size = 0 :=
    scaleResolved_ams_zero sf _ (by rw [resolvePresets_air_mesh_size]; exact h0)
  have hfac : (scaleResolved sf (resolvePresets a)).auto_air_mesh_factor =
      if a.draft then 20 else if a.fine then 40 else 30 := by
    rw [scaleResolved_divisor, resolvePresets_divisor]
  have hlx : lenX (airBox b (scaledPadding a sf)) = b.xmax + 2 * scaledPadding a sf := by
    unfold lenX airBox
    dsimp only
    rw [max_eq_right hx, min_eq_left hx, sub_zero]
  have hly : lenY (airBox b (scaledPadding a sf)) = b.ymax + 2 * scaledPadding a sf := by
    unfold lenY airBox
    dsimp only
    rw [max_eq_right hy, min_eq_left hy, sub_zero]
  have hlz : lenZ (airBox b (scaledPadding a sf)) = b.zmax + 2 * scaledPadding a sf := by
    unfold lenZ airBox
    dsimp only
    rw [max_eq_right hz, min_eq_left hz, sub_zero]
  show outerSize (scaleResolved sf (resolvePresets a)) b = _
  unfold outerSize
  rw [if_pos hams, hlx, hly, hlz, hfac]
  rfl

/-- Witness for C6 with all-default arguments, scale factor 1 and the unit
cube: the outer size comes out as `round(2403 / 30, 5)`. -/
theorem C6_outer_size_auto_formula_witness :
    defaultArgs.air_mesh_size = 0 ∧
    (0 : ℚ) ≤ (⟨0, 0, 0, 1, 1, 1⟩ : BBox).xmax + 2 * scaledPadding defaultArgs 1 ∧
    (plan defaultArgs 1 ⟨0, 0, 0, 1, 1, 1⟩).outer_size =
      round5 ((lenX (airBox ⟨0, 0, 0, 1, 1, 1⟩ (scaledPadding defaultArgs 1)) +
               lenY (airBox ⟨0, 0, 0, 1, 1, 1⟩ (scaledPadding defaultArgs 1)) +
               lenZ (airBox ⟨0, 0, 0, 1, 1, 1⟩ (scaledPadding defaultArgs 1))) /
              (if defaultArgs.draft then 20 else if defaultArgs.fine then 40 else 30)) :=
  ⟨rfl,
   by norm_num [scaledPadding, scaleResolved, resolvePresets, defaultArgs],
   C6_outer_size_auto_formula defaultArgs 1 ⟨0, 0, 0, 1, 1, 1⟩ rfl
     (by norm_num [scaledPadding, scaleResolved, resolvePresets, defaultArgs])
     (by norm_num [scaledPadding, scaleResolved, resolvePresets, defaultArgs])
     (by norm_num [scaledPadding, scaleResolved, resolvePresets, defaultArgs])⟩

/-- C7: the units dispatch maps MM to 0.001, CM to 0.01 and M to 1, and
fails with an error on every other units string rather than defaulting. -/
theorem C7_scale_factor_units :
    scale_factor "MM".toList = .ok (1/1000) ∧
    scale_factor "CM".toList = .ok (1/100) ∧
    scale_factor "M".toList = .ok 1 ∧
    ∀ u : List Char, u ≠ "MM".toList → u ≠ "CM".toList → u ≠ "M".toList →
      scale_factor u = .error "IGES file is using unexpected units" := by
  refine ⟨rfl, rfl, rfl, ?_⟩
  intro u h1 h2 h3
  unfold scale_factor
  rw [if_neg h1, if_neg h2, if_neg h3]

/-- Witness for C7 at the unsupported units string IN. -/
theorem C7_scale_factor_units_witness :
    ("IN".toList ≠ "MM".toList ∧ "IN".toList ≠ "CM".toList ∧ "IN".toList ≠ "M".toList) ∧
    scale_factor "IN".toList = .error "IGES file is using unexpected units" :=
  ⟨⟨by decide, by decide, by decide⟩,
   C7_scale_factor_units.2.2.2 "IN".toList (by decide) (by decide) (by decide)⟩

/-- C8: the units parser fails (returning no units value) on every file
with no Global-Section-tagged line (no line of length at least 73 carrying
G at index 72), and on every file whose concatenated Global-Section record
splits into fewer than 15 delimited fields. -/
theorem C8_missing_section_and_short_record_fail :
    (∀ lines : List (List Char),
        (∀ l ∈ lines, ¬(73 ≤ l.length ∧ l.getD 72 ' ' = 'G')) →
        ∃ e, get_iges_units lines = .error e) ∧
    (∀ lines : List (List Char), (igesFields lines).length < 15 →
        ∃ e, get_iges_units lines = .error e) := by
  constructor
  · intro lines h
    have hfilter : lines.filter isGlobalLine = [] := by
      rw [List.filter_eq_nil_iff]
      intro l hl
      have hcl := h l hl
      simp only [isGlobalLine, Bool.and_eq_true, decide_eq_true_eq, beq_iff_eq]
      exact fun hc => hcl ⟨hc.1, hc.2⟩
    have hgd : globalData lines = [] := by
      unfold globalData
      rw [hfilter]
      rfl
    exact ⟨"No Global Section found (no lines with G flag)", by
      unfold get_iges_units
      rw [if_pos hgd]⟩
  · intro lines h
    by_cases hgd : globalData lines = []
    · exact ⟨"No Global Section found (no lines with G flag)", by
        unfold get_iges_units
        rw [if_pos hgd]⟩
    · exact ⟨"Global Section does not have enough fields to extract units", by
        unfold get_iges_units
        rw [if_neg hgd, if_pos h]⟩

/-- Witness for C8: a file with a single untagged short line, and a file
with a single Global-Section line whose record holds only one field. -/
theorem C8_missing_section_and_short_record_fail_witness :
    (∀ l ∈ [("hello".toList)], ¬(73 ≤ l.length ∧ l.getD 72 ' ' = 'G')) ∧
    (igesFields [(',' :: ';' :: List.replicate 70 'x') ++ ['G']]).length < 15 ∧
    (∃ e, get_iges_units [("hello".toList)] = .error e) ∧
    (∃ e, get_iges_units [(',' :: ';' :: List.replicate 70 'x') ++ ['G']] = .error e) :=
  ⟨by decide, by decide,
   C8_missing_section_and_short_record_fail.1 _ (by decide),
   C8_missing_section_and_short_record_fail.2 _ (by decide)⟩

/-- C9 fails as stated on strings with an embedded newline: the regex dot
does not cross a newline, so decoding `2HA\nB` yields `A` and not the first
two characters after the H, which are `A\n`. -/
theorem C9_counterexample_newline :
    "2HA\nB".toList = "2".toList ++ 'H' :: "A\nB".toList ∧
    ("A\nB".toList).take (natOfDigits "2".toList) = "A\n".toList ∧
    decode_hollerith "2HA\nB".toList = "A".toList ∧
    "A".toList ≠ "A\n".toList :=
  ⟨by decide, by decide, by decide, by decide⟩

/-- C9 (amended): `decode_hollerith` is the identity on every string that
does not begin with a nonempty digit run followed by H; on a counted string
`<N>H<text>` it returns the first N characters of the text provided those
characters contain no newline (with a newline among them the result is
truncated at the newline, as in the counterexample); and the two concrete
examples from the spec hold. -/
theorem C9_decode_hollerith_behaviour :
    (∀ s : List Char,
        (∀ d t, s = d ++ 'H' :: t → ¬(d ≠ [] ∧ ∀ c ∈ d, c.isDigit = true)) →
        decode_hollerith s = s) ∧
    (∀ d t : List Char, d ≠ [] → (∀ c ∈ d, c.isDigit = true) →
        '\n' ∉ t.take (natOfDigits d) →
        decode_hollerith (d ++ 'H' :: t) = t.take (natOfDigits d)) ∧
    decode_hollerith "4HTEST".toList = "TEST".toList ∧
    decode_hollerith "2HAB".toList = "AB".toList :=
  ⟨decode_hollerith_id, decode_hollerith_counted, by decide, by decide⟩

/-- Witness for C9 (amended): the identity part at `XYZ` (which contains no
H at all) and the counted part at `12HABCDE`. -/
theorem C9_decode_hollerith_behaviour_witness :
    decode_hollerith "XYZ".toList = "XYZ".toList ∧
    decode_hollerith ("12".toList ++ 'H' :: "ABCDE".toList) =
      ("ABCDE".toList).take (natOfDigits "12".toList) :=
  ⟨C9_decode_hollerith_behaviour.1 "XYZ".toList (by
      intro d t he _
      have hm : ('H' : Char) ∈ "XYZ".toList := by
        rw [he]
        simp
      exact absurd hm (by decide)),
   C9_decode_hollerith_behaviour.2.1 "12".toList "ABCDE".toList (by decide) (by decide)
     (by decide)⟩

/-- C10: whenever the model holds no 3-D volume after import and duplicate
removal, the pipeline stops with an error, and neither the air-box creation
nor any boolean (fragment) operation is ever issued. -/
theorem C10_no_volumes_early_failure (m : ImportedModel) (h : m.volumes = []) :
    (pipelineOps m).2.isSome = true ∧
    KernelOp.addBox ∉ (pipelineOps m).1 ∧
    KernelOp.fragment ∉ (pipelineOps m).1 := by
  unfold pipelineOps
  cases hs : scale_factor m.unit_name with
  | error e => exact ⟨rfl, by simp, by simp⟩
  | ok sf =>
    dsimp only
    by_cases hd : m.duplicates ≠ []
    · rw [if_pos hd]
      exact ⟨rfl, addBox_not_mem_opening sf, fragment_not_mem_opening sf⟩
    · rw [if_neg hd, if_pos h]
      exact ⟨rfl, addBox_not_mem_opening sf, fragment_not_mem_opening sf⟩

/-- Witness for C10: a model in MM units with no duplicates and no volume. -/
theorem C10_no_volumes_early_failure_witness :
    (⟨"MM".toList, [], []⟩ : ImportedModel).volumes = [] ∧
    ((pipelineOps ⟨"MM".toList, [], []⟩).2.isSome = true ∧
     KernelOp.addBox ∉ (pipelineOps ⟨"MM".toList, [], []⟩).1 ∧
     KernelOp.fragment ∉ (pipelineOps ⟨"MM".toList, [], []⟩).1) :=
  ⟨rfl, C10_no_volumes_early_failure ⟨"MM".toList, [], []⟩ rfl⟩

end GmshMesher
